import Mathlib

set_option linter.unusedVariables false

/-! Shallow embedding of the Gradio RPC client (the js `API` class) of the
texmexdex type modeler repository: JSON values, the server-sent-event
stream scan, the queue/legacy call protocol, and the capability wrappers.
Fetch responses are supplied as explicit data (a `Network` record), state
mutation is explicit state passing, thrown js errors are `Except.error`,
and the js value `undefined` is `Option.none`. -/

/-- JSON values as produced by JSON.parse. Numbers are modelled as
integers: the payloads this client handles carry only integral numbers,
and the model parser treats fractional or exponent literals as
unparseable (such a line is skipped by the scan either way). -/
inductive Json where
  | null : Json
  | bool : Bool → Json
  | num : Int → Json
  | str : String → Json
  | arr : List Json → Json
  | obj : List (String × Json) → Json

/-- Property lookup in a parsed-object field list; a later duplicate key
wins, as in JSON.parse. -/
def lookupField (fs : List (String × Json)) (k : String) : Option Json :=
  match fs with
  | [] => none
  | (k2, v) :: rest =>
    match lookupField rest k with
    | some v2 => some v2
    | none => if k2 = k then some v else none

/-- Property access `j.k` on a JSON value that is not null/undefined:
only object values have the properties this client reads. -/
def objField (j : Json) (k : String) : Option Json :=
  match j with
  | Json.obj fs => lookupField fs k
  | _ => none

/-- Truthiness of a JSON value under js coercion. -/
def jsTruthyJ (j : Json) : Bool :=
  match j with
  | Json.null => false
  | Json.bool b => b
  | Json.num n => !(n == 0)
  | Json.str s => !(s == "")
  | Json.arr _ => true
  | Json.obj _ => true

/-- Truthiness of a possibly-undefined js value. -/
def jsTruthy (v : Option Json) : Bool :=
  match v with
  | none => false
  | some j => jsTruthyJ j

/-- Whether `typeof v` is the string "object" (objects, arrays and null). -/
def isObjectType (v : Option Json) : Bool :=
  match v with
  | some (Json.obj _) => true
  | some (Json.arr _) => true
  | some Json.null => true
  | _ => false

/-- Whether a possibly-undefined js value is exactly the js null, the
`x !== null` test of the wrappers negated. -/
def isNullv (v : Option Json) : Bool :=
  match v with
  | some Json.null => true
  | _ => false

/-- The js `text.split("\n")` on decoded chunk text. -/
def splitLines (cs : List Char) : List (List Char) :=
  match cs with
  | [] => [[]]
  | c :: rest =>
    if c = '\n' then [] :: splitLines rest
    else
      match splitLines rest with
      | l :: ls => (c :: l) :: ls
      | [] => [[c]]

/-- JSON whitespace characters. -/
def isWsChar (c : Char) : Bool :=
  c = ' ' || c = '\t' || c = '\n' || c = '\r'

/-- Skip JSON whitespace. -/
def skipWs (cs : List Char) : List Char := cs.dropWhile isWsChar

/-- Value of a hexadecimal digit. -/
def hexVal (c : Char) : Option Nat :=
  if '0' ≤ c ∧ c ≤ '9' then some (c.toNat - 48)
  else if 'a' ≤ c ∧ c ≤ 'f' then some (c.toNat - 87)
  else if 'A' ≤ c ∧ c ≤ 'F' then some (c.toNat - 55)
  else none

/-- Single-character JSON string escapes. -/
def escChar (c : Char) : Option Char :=
  match c with
  | '"' => some '"'
  | '\\' => some '\\'
  | '/' => some '/'
  | 'b' => some (Char.ofNat 8)
  | 'f' => some (Char.ofNat 12)
  | 'n' => some '\n'
  | 'r' => some '\r'
  | 't' => some '\t'
  | _ => none

/-- Parse the body of a JSON string after the opening quote, returning the
content and the remainder after the closing quote. Raw control characters
are rejected, escapes (including unicode escapes) are decoded. -/
def parseStringBody (cs : List Char) : Option (List Char × List Char) :=
  match cs with
  | [] => none
  | c :: rest =>
    if c = '"' then some ([], rest)
    else if c = '\\' then
      match rest with
      | [] => none
      | e :: rest2 =>
        match escChar e with
        | some ec => (parseStringBody rest2).map (fun p => (ec :: p.1, p.2))
        | none =>
          if e = 'u' then
            match rest2 with
            | h1 :: h2 :: h3 :: h4 :: rest3 =>
              match hexVal h1, hexVal h2, hexVal h3, hexVal h4 with
              | some v1, some v2, some v3, some v4 =>
                (parseStringBody rest3).map
                  (fun p => (Char.ofNat (((v1 * 16 + v2) * 16 + v3) * 16 + v4) :: p.1, p.2))
              | _, _, _, _ => none
            | _ => none
          else none
    else if c.toNat < 32 then none
    else (parseStringBody rest).map (fun p => (c :: p.1, p.2))

/-- Parse an unsigned JSON integer literal (leading-zero rule of the
grammar enforced; a following fraction or exponent marker makes the
literal unparseable in this model). -/
def parseDigits (cs : List Char) : Option (Int × List Char) :=
  let ds := cs.takeWhile Char.isDigit
  let rest := cs.dropWhile Char.isDigit
  if ds.isEmpty then none
  else if 1 < ds.length ∧ ds.headD '0' = '0' then none
  else
    match rest with
    | '.' :: _ => none
    | 'e' :: _ => none
    | 'E' :: _ => none
    | _ => some (Int.ofNat (ds.foldl (fun a c => a * 10 + (c.toNat - 48)) 0), rest)

/-- Parse a JSON number literal: at most one leading minus sign followed
by an integral digit run. -/
def parseNumber (cs : List Char) : Option (Json × List Char) :=
  match cs with
  | '-' :: rest => (parseDigits rest).map (fun p => (Json.num (-p.1), p.2))
  | _ => (parseDigits cs).map (fun p => (Json.num p.1, p.2))

mutual

/-- Parse one JSON value; the fuel bounds nesting and is ample when set to
twice the input length. -/
def parseVal : Nat → List Char → Option (Json × List Char)
  | 0, _ => none
  | Nat.succ fuel, cs =>
    match skipWs cs with
    | 'n' :: 'u' :: 'l' :: 'l' :: rest => some (Json.null, rest)
    | 't' :: 'r' :: 'u' :: 'e' :: rest => some (Json.bool true, rest)
    | 'f' :: 'a' :: 'l' :: 's' :: 'e' :: rest => some (Json.bool false, rest)
    | '"' :: rest => (parseStringBody rest).map (fun p => (Json.str (String.mk p.1), p.2))
    | '[' :: rest =>
      (match skipWs rest with
       | ']' :: rest2 => some (Json.arr [], rest2)
       | _ => (parseItems fuel (skipWs rest)).map (fun p => (Json.arr p.1, p.2)))
    | '{' :: rest =>
      (match skipWs rest with
       | '}' :: rest2 => some (Json.obj [], rest2)
       | _ => (parseFields fuel (skipWs rest)).map (fun p => (Json.obj p.1, p.2)))
    | other => parseNumber other

/-- Parse the comma-separated items of a non-empty JSON array up to the
closing bracket. -/
def parseItems : Nat → List Char → Option (List Json × List Char)
  | 0, _ => none
  | Nat.succ fuel, cs =>
    (parseVal fuel cs).bind
      (fun p =>
        match skipWs p.2 with
        | ',' :: rest2 => (parseItems fuel rest2).map (fun q => (p.1 :: q.1, q.2))
        | ']' :: rest2 => some ([p.1], rest2)
        | _ => none)

/-- Parse the key/value fields of a non-empty JSON object up to the
closing brace. -/
def parseFields : Nat → List Char → Option (List (String × Json) × List Char)
  | 0, _ => none
  | Nat.succ fuel, cs =>
    match skipWs cs with
    | '"' :: rest =>
      (parseStringBody rest).bind
        (fun kp =>
          match skipWs kp.2 with
          | ':' :: rest2 =>
            (parseVal fuel rest2).bind
              (fun vp =>
                match skipWs vp.2 with
                | ',' :: rest4 =>
                  (parseFields fuel rest4).map (fun q => ((String.mk kp.1, vp.1) :: q.1, q.2))
                | '}' :: rest4 => some ([(String.mk kp.1, vp.1)], rest4)
                | _ => none)
          | _ => none)
    | _ => none

end

/-- The model of js JSON.parse over decoded characters: one value, then
only trailing whitespace. -/
def parseJsonChars (cs : List Char) : Option Json :=
  match parseVal (2 * cs.length + 2) cs with
  | some (v, rest) => if (skipWs rest).isEmpty then some v else none
  | none => none

/-- The model of js JSON.parse on a string argument. -/
def parseJson (s : String) : Option Json := parseJsonChars s.toList

mutual

/-- Size of a JSON value, used as ample fuel for the serialization and
string-coercion models (it dominates the nesting depth). -/
def jsonSize : Json → Nat
  | Json.null => 1
  | Json.bool _ => 1
  | Json.num _ => 1
  | Json.str _ => 1
  | Json.arr xs => 1 + jsonSizeL xs
  | Json.obj fs => 1 + jsonSizeF fs

/-- Size of a list of JSON values. -/
def jsonSizeL : List Json → Nat
  | [] => 0
  | x :: xs => jsonSize x + jsonSizeL xs

/-- Size of a JSON object field list. -/
def jsonSizeF : List (String × Json) → Nat
  | [] => 0
  | p :: ps => jsonSize p.2 + jsonSizeF ps

end

/-- Serialize one escaped character of a JSON string, as JSON.stringify
does. -/
def escOut (c : Char) : List Char :=
  if c = '"' then ['\\', '"']
  else if c = '\\' then ['\\', '\\']
  else if c = '\n' then ['\\', 'n']
  else if c = '\r' then ['\\', 'r']
  else if c = '\t' then ['\\', 't']
  else if c.toNat = 8 then ['\\', 'b']
  else if c.toNat = 12 then ['\\', 'f']
  else if c.toNat < 32 then
    ['\\', 'u', '0', '0',
     (if c.toNat / 16 < 10 then Char.ofNat (48 + c.toNat / 16) else Char.ofNat (87 + c.toNat / 16)),
     (if c.toNat % 16 < 10 then Char.ofNat (48 + c.toNat % 16) else Char.ofNat (87 + c.toNat % 16))]
  else [c]

/-- Quote a string as a JSON string literal. -/
def quoteStr (s : String) : String :=
  String.mk ('"' :: (s.toList.flatMap escOut) ++ ['"'])

/-- Join serialized pieces with commas. -/
def commaJoin (ss : List String) : String :=
  match ss with
  | [] => ""
  | [s] => s
  | s :: rest => s ++ "," ++ commaJoin rest

/-- Fuel-indexed body of the JSON.stringify model; the fuel dominates the
nesting depth. -/
def serializeFuel : Nat → Json → String
  | 0, _ => ""
  | Nat.succ fuel, j =>
    match j with
    | Json.null => "null"
    | Json.bool b => if b then "true" else "false"
    | Json.num n => toString n
    | Json.str s => quoteStr s
    | Json.arr xs => "[" ++ commaJoin (xs.map (serializeFuel fuel)) ++ "]"
    | Json.obj fs =>
      "\x7b" ++ commaJoin (fs.map (fun p => quoteStr p.1 ++ ":" ++ serializeFuel fuel p.2)) ++ "\x7d"

/-- The model of js JSON.stringify (no undefined values occur in `Json`,
so serialization is total). -/
def jsonSerialize (j : Json) : String := serializeFuel (jsonSize j) j

/-- Fuel-indexed body of the js String() coercion model: arrays join their
elements with commas (null elements becoming empty), plain objects render
as `[object Object]`. -/
def jsToStringFuel : Nat → Json → String
  | 0, _ => ""
  | Nat.succ fuel, j =>
    match j with
    | Json.null => "null"
    | Json.bool b => if b then "true" else "false"
    | Json.num n => toString n
    | Json.str s => s
    | Json.arr xs =>
      commaJoin (xs.map (fun x =>
        match x with
        | Json.null => ""
        | y => jsToStringFuel fuel y))
    | Json.obj _ => "[object Object]"

/-- The js String() coercion of a JSON value. -/
def jsToString (j : Json) : String := jsToStringFuel (jsonSize j) j

/-- The model of js JSON.parse applied to an arbitrary (possibly
undefined, possibly non-string) value: non-string arguments are coerced to
a string first; a parse failure throws (the js message text is
engine-specific and is modelled by one fixed string). -/
def jsParse (v : Option Json) : Except String Json :=
  match v with
  | none =>
    match parseJson "undefined" with
    | some r => Except.ok r
    | none => Except.error "Unexpected token in JSON"
  | some (Json.str s) =>
    match parseJson s with
    | some r => Except.ok r
    | none => Except.error "Unexpected token in JSON"
  | some j =>
    match parseJson (jsToString j) with
    | some r => Except.ok r
    | none => Except.error "Unexpected token in JSON"

/-- Index access `v[i]` on a js value: throws on undefined and null,
yields an element for arrays, a one-character string for strings, a
numeric-key property for objects and undefined otherwise. -/
def jsIndex (v : Option Json) (i : Nat) : Except String (Option Json) :=
  match v with
  | none => Except.error "Cannot read properties of undefined"
  | some Json.null => Except.error "Cannot read properties of null"
  | some (Json.arr xs) => Except.ok (xs.get? i)
  | some (Json.str s) =>
    Except.ok
      (match s.toList.drop i with
       | c :: _ => some (Json.str (String.mk [c]))
       | [] => none)
  | some (Json.obj fs) => Except.ok (lookupField fs (Nat.repr i))
  | some (Json.num _) => Except.ok none
  | some (Json.bool _) => Except.ok none

/-- Property access `j.k` that throws on js null, as reading a field of a
parsed null body does. -/
def jsGetFieldE (j : Json) (k : String) : Except String (Option Json) :=
  match j with
  | Json.null => Except.error "Cannot read properties of null"
  | _ => Except.ok (objField j k)

/-- Whether a parsed stream event is the completion the scan looks for:
`data.msg === "process_completed" && data.output` (source lines 351). -/
def isCompletion (d : Json) : Bool :=
  (match objField d "msg" with
   | some (Json.str s) => s == "process_completed"
   | _ => false)
  && jsTruthy (objField d "output")

/-- The value `data.output.data` extracted from a completion event. -/
def completionResult (d : Json) : Option Json :=
  match objField d "output" with
  | some o => objField o "data"
  | none => none

/-- Scan the lines of one decoded chunk for the first `data: `-prefixed
line whose remainder parses to a completion event; a line whose remainder
fails to parse, or parses to a non-completion event, is skipped (the js
try/catch around JSON.parse, source lines 347-359). The returned inner
option is the possibly-undefined `data.output.data`. -/
def scanLines (lines : List (List Char)) : Option (Option Json) :=
  match lines with
  | [] => none
  | line :: rest =>
    if ("data: ".toList).isPrefixOf line then
      match parseJsonChars (line.drop 6) with
      | some d => if isCompletion d then some (completionResult d) else scanLines rest
      | none => scanLines rest
    else scanLines rest

/-- Scan one chunk of the event stream. -/
def scanChunk (chunk : List Char) : Option (Option Json) :=
  scanLines (splitLines chunk)

/-- The poll read loop over the stream chunks: chunks are consumed in
order until a chunk contains a completion event, whose payload is
returned; once a completion is found the reader is cancelled, so no
further chunk is read even when the payload is falsy. -/
def pollStream (chunks : List (List Char)) : Option (Option Json) :=
  match chunks with
  | [] => none
  | c :: rest =>
    match scanChunk c with
    | some r => some r
    | none => pollStream rest

/-- State of one `API` client instance: the fields set by the constructor
(source lines 7-15); the session hash is the random identifier drawn at
construction time. -/
structure ClientState where
  baseUrl : String
  apiPrefix : String
  isConnected : Bool
  sessionHash : String

/-- The constructor `new API(baseUrl)`: the random session hash is passed
in explicitly since Math.random is not part of the embedding; a null
baseUrl argument falls back to the detected HF Space URL. -/
def mkAPI (baseUrl : Option String) (randomHash : String) : ClientState :=
  { baseUrl := baseUrl.getD "https://texmexdex-texmexdex-type-modeler.hf.space"
    apiPrefix := "/gradio_api"
    isConnected := false
    sessionHash := randomHash }

/-- One HTTP response as the client observes it: the ok flag and status of
fetch, and the body as the list of decoded text chunks the stream reader
yields (`response.json()` parses their concatenation). -/
structure FetchResp where
  ok : Bool
  status : Nat
  statusText : String
  chunks : List (List Char)

/-- The `response.json()` of a fetch response. -/
def FetchResp.jsonBody (r : FetchResp) : Except String Json :=
  match parseJsonChars r.chunks.flatten with
  | some v => Except.ok v
  | none => Except.error "Unexpected end of JSON input"

/-- The network as data: what each endpoint the client contacts would
answer during the call; `Except.error` is a fetch-level (transport)
failure. -/
structure Network where
  config : Except String FetchResp
  queueJoin : Except String FetchResp
  queueData : Except String FetchResp
  apiPredict : Except String FetchResp

/-- One request the client issued, with the body or query data that
identifies it. -/
inductive Request where
  | configProbe : Request
  | queueJoin : Json → Request
  | queueData : String → Request
  | apiPredict : Json → Request

/-- Result of the js lookup `indexMap[fnName] ?? 0`: a numeric index, or
an inherited Object.prototype member — property lookup on an object
literal walks the prototype chain, and such a member is not nullish, so
`??` keeps it. The inherited functions are distinguished from the result
of the proto accessor because JSON.stringify later omits function-valued
fields but serializes the prototype object as an empty object. -/
inductive JsLookup where
  | num : Int → JsLookup
  | protoFun : String → JsLookup
  | protoObj : JsLookup

/-- Names of the function-valued members every object literal inherits
from Object.prototype. -/
def objectProtoFunNames : List String :=
  ["constructor", "hasOwnProperty", "isPrototypeOf", "propertyIsEnumerable",
   "toLocaleString", "toString", "valueOf", "__defineGetter__", "__defineSetter__",
   "__lookupGetter__", "__lookupSetter__"]

/-- The capability-name lookup of `_getFnIndex` (source lines 403-415):
`indexMap[fnName] ?? 0`. A key of the literal map yields its index; a
name of an inherited Object.prototype member yields that inherited member
(not nullish, hence kept by `??`); every other name yields undefined,
which `??` replaces with the default 0. -/
def getFnIndex (fnName : String) : JsLookup :=
  if fnName = "chat_to_code" then JsLookup.num 0
  else if fnName = "parse_parameters" then JsLookup.num 2
  else if fnName = "generate_mesh" then JsLookup.num 3
  else if fnName = "export_stl" then JsLookup.num 4
  else if fnName = "get_component_template" then JsLookup.num 5
  else if fnName = "validate_code" then JsLookup.num 6
  else if fnName = "auto_fix_code" then JsLookup.num 7
  else if fnName = "__proto__" then JsLookup.protoObj
  else if fnName ∈ objectProtoFunNames then JsLookup.protoFun fnName
  else JsLookup.num 0

/-- The fn_index field of a request body as JSON.stringify emits it: a
numeric index is serialized, an inherited prototype function is omitted
(stringify drops function-valued fields), and the prototype object
serializes as an empty object. -/
def fnIndexField (fnName : String) : List (String × Json) :=
  match getFnIndex fnName with
  | JsLookup.num k => [("fn_index", Json.num k)]
  | JsLookup.protoFun _ => []
  | JsLookup.protoObj => [("fn_index", Json.obj [])]

/-- The queue/join request body (source lines 295-299) as serialized. -/
def joinBody (fnName : String) (args : List Json) (sessionHash : String) : Json :=
  Json.obj (("data", Json.arr args) :: fnIndexField fnName ++
    [("session_hash", Json.str sessionHash)])

/-- The legacy api/predict request body (source lines 384-387) as
serialized. -/
def predictBody (fnName : String) (args : List Json) : Json :=
  Json.obj (("data", Json.arr args) :: fnIndexField fnName)

/-- The effective `checkConnection` (the second definition, source lines
420-429, which overrides the first): probe /config, record and return
whether it answered ok; a transport failure is caught and yields false. -/
def checkConnection (st : ClientState) (net : Network) : Bool × ClientState :=
  match net.config with
  | Except.ok r => (r.ok, { st with isConnected := r.ok })
  | Except.error _ => (false, { st with isConnected := false })

/-- The legacy fallback `_callGradioLegacy` (source lines 376-398): POST
api/predict, throw on a non-ok response, otherwise return `result.data`
of the parsed body; isConnected is set right after the body parse, so it
is true even when the data access on a null body then throws. -/
def callGradioLegacy (st : ClientState) (net : Network) (fnName : String) (args : List Json) :
    Except String (Option Json) × ClientState × List Request :=
  let body := predictBody fnName args
  match net.apiPredict with
  | Except.error e => (Except.error e, st, [Request.apiPredict body])
  | Except.ok r =>
    if r.ok then
      match r.jsonBody with
      | Except.error e => (Except.error e, st, [Request.apiPredict body])
      | Except.ok result =>
        match jsGetFieldE result "data" with
        | Except.error e =>
          (Except.error e, { st with isConnected := true }, [Request.apiPredict body])
        | Except.ok d => (Except.ok d, { st with isConnected := true }, [Request.apiPredict body])
    else
      (Except.error ("API error: " ++ Nat.repr r.status ++ " " ++ r.statusText), st,
        [Request.apiPredict body])

/-- The queue-protocol call `_callGradio5` (source lines 282-371):
checkConnection, submit to queue/join, fall back to the legacy path on a
non-ok submission, otherwise read the submission body (for the unused
event id), open queue/data and scan its stream; a truthy completion
payload is the result, anything else is the no-result error. -/
def callGradio5 (st : ClientState) (net : Network) (fnName : String) (args : List Json) :
    Except String (Option Json) × ClientState × List Request :=
  let st1 := (checkConnection st net).2
  let body := joinBody fnName args st1.sessionHash
  match net.queueJoin with
  | Except.error e => (Except.error e, st1, [Request.configProbe, Request.queueJoin body])
  | Except.ok submitResponse =>
    if submitResponse.ok then
      match submitResponse.jsonBody with
      | Except.error e => (Except.error e, st1, [Request.configProbe, Request.queueJoin body])
      | Except.ok submitResult =>
        match jsGetFieldE submitResult "event_id" with
        | Except.error e => (Except.error e, st1, [Request.configProbe, Request.queueJoin body])
        | Except.ok _eventId =>
          match net.queueData with
          | Except.error e =>
            (Except.error e, st1,
              [Request.configProbe, Request.queueJoin body, Request.queueData st1.sessionHash])
          | Except.ok resultResponse =>
            if resultResponse.ok then
              match pollStream resultResponse.chunks with
              | some r =>
                if jsTruthy r then
                  (Except.ok r, { st1 with isConnected := true },
                    [Request.configProbe, Request.queueJoin body, Request.queueData st1.sessionHash])
                else
                  (Except.error "No result received from queue", st1,
                    [Request.configProbe, Request.queueJoin body, Request.queueData st1.sessionHash])
              | none =>
                (Except.error "No result received from queue", st1,
                  [Request.configProbe, Request.queueJoin body, Request.queueData st1.sessionHash])
            else
              (Except.error ("Queue data error: " ++ Nat.repr resultResponse.status), st1,
                [Request.configProbe, Request.queueJoin body, Request.queueData st1.sessionHash])
    else
      match callGradioLegacy st1 net fnName args with
      | (r, st2, tr2) =>
        (r, st2, [Request.configProbe, Request.queueJoin body] ++ tr2)

/-- Whether the string starts with the given literal, js
`s.startsWith(p)`. -/
def startsWithS (s p : String) : Bool := p.toList.isPrefixOf s.toList

/-- Property access used by the inline file-reference normalization of
generateMesh (source lines 112-120) and exportSTL (source lines 235-241),
split here into the extraction and absolutization steps of those same
lines. -/
def refField (v : Option Json) (k : String) : Option Json :=
  match v with
  | some j => objField j k
  | none => none

/-- The extraction step `meshUrl.url || meshUrl.path || null` of the
file-reference normalization. -/
def extractRef (v : Option Json) : Option Json :=
  if jsTruthy (refField v "url") then refField v "url"
  else if jsTruthy (refField v "path") then refField v "path"
  else some Json.null

/-- The absolutization step of the file-reference normalization: a truthy
extracted value that is not a string makes the startsWith call throw; a
truthy string not starting with `http` is prefixed with the base URL,
inserting a slash only when the string does not itself start with one; a
falsy extracted value passes through. -/
def normalizeStage2 (baseUrl : String) (m : Option Json) : Except String (Option Json) :=
  if jsTruthy m then
    match m with
    | some (Json.str s) =>
      if startsWithS s "http" then Except.ok m
      else Except.ok (some (Json.str (baseUrl ++ (if startsWithS s "/" then "" else "/") ++ s)))
    | _ => Except.error "startsWith is not a function"
  else Except.ok m

/-- The full file-reference normalization: only a truthy value of object
type is extracted and absolutized; every other value (a plain string in
particular) passes through unchanged. -/
def normalizeFileRef (baseUrl : String) (v : Option Json) : Except String (Option Json) :=
  if jsTruthy v && isObjectType v then
    normalizeStage2 baseUrl (extractRef v)
  else Except.ok v

/-- Result envelope of chatToCode (source lines 76-101). -/
structure ChatToCodeResult where
  success : Bool
  code : Option Json := none
  status : Option Json := none
  history : Option Json := none
  error : Option String := none

/-- Result envelope of generateMesh (source lines 106-137). -/
structure GenerateMeshResult where
  success : Bool
  meshUrl : Option Json := none
  status : Option Json := none
  meshInfo : Option Json := none
  error : Option String := none

/-- Result envelope of parseParameters (source lines 142-159). -/
structure ParseParametersResult where
  success : Bool
  params : Option Json := none
  status : Option Json := none
  error : Option String := none

/-- Result envelope of validateCode (source lines 164-191). -/
structure ValidateCodeResult where
  success : Bool
  message : Option Json := none
  warnings : Option Json := none
  error : Option String := none

/-- Result envelope of autoFixCode (source lines 196-224). -/
structure AutoFixCodeResult where
  success : Bool
  fixedCode : Option Json := none
  status : Option Json := none
  fixes : Option Json := none
  error : Option String := none

/-- Result envelope of exportSTL (source lines 229-255). -/
structure ExportSTLResult where
  success : Bool
  fileUrl : Option Json := none
  status : Option Json := none
  error : Option String := none

/-- Result envelope of getComponentTemplate (source lines 260-277). -/
structure GetComponentTemplateResult where
  success : Bool
  code : Option Json := none
  description : Option Json := none
  error : Option String := none

/-- The try-block of chatToCode applied to the outcome of the underlying
call; any thrown error becomes the failure envelope of the catch. -/
def chatToCodeResp (resp : Except String (Option Json)) : ChatToCodeResult :=
  match (do
      let response ← resp
      let r0 ← jsIndex response 0
      let r1 ← jsIndex response 1
      let r2 ← jsIndex response 2
      Except.ok { success := true, code := r0, status := r1, history := r2 }
    : Except String ChatToCodeResult) with
  | Except.ok v => v
  | Except.error e => { success := false, error := some e }

/-- The try-block of generateMesh applied to the outcome of the underlying
call: normalize the file reference of slot 0, succeed iff it is not js
null, and convert a thrown error into the failure envelope. -/
def generateMeshResp (baseUrl : String) (resp : Except String (Option Json)) :
    GenerateMeshResult :=
  match (do
      let response ← resp
      let r0 ← jsIndex response 0
      let meshUrl ← normalizeFileRef baseUrl r0
      let r1 ← jsIndex response 1
      let r2 ← jsIndex response 2
      Except.ok { success := !(isNullv meshUrl), meshUrl := meshUrl, status := r1, meshInfo := r2 }
    : Except String GenerateMeshResult) with
  | Except.ok v => v
  | Except.error e => { success := false, error := some e }

/-- The try-block of parseParameters applied to the outcome of the
underlying call: `JSON.parse(response[0] || "\x7b\x7d")` is not guarded
by an inner catch, so a malformed params string makes the whole call fail
through the outer catch, which substitutes the empty params object. -/
def parseParametersResp (resp : Except String (Option Json)) : ParseParametersResult :=
  match (do
      let response ← resp
      let r0 ← jsIndex response 0
      let params ← jsParse (if jsTruthy r0 then r0 else some (Json.str "\x7b\x7d"))
      let r1 ← jsIndex response 1
      Except.ok { success := true, params := some params, status := r1 }
    : Except String ParseParametersResult) with
  | Except.ok v => v
  | Except.error e => { success := false, error := some e, params := some (Json.obj []) }

/-- The try-block of validateCode applied to the outcome of the underlying
call: the warnings slot is decoded under an inner catch that degrades any
failure (truthiness guard included) to the empty list. -/
def validateCodeResp (resp : Except String (Option Json)) : ValidateCodeResult :=
  match (do
      let response ← resp
      let warnings : Json :=
        match (do
            let r1 ← jsIndex response 1
            if jsTruthy r1 then jsParse r1 else Except.ok (Json.arr [])
          : Except String Json) with
        | Except.ok w => w
        | Except.error _ => Json.arr []
      let r0 ← jsIndex response 0
      Except.ok { success := true, message := r0, warnings := some warnings }
    : Except String ValidateCodeResult) with
  | Except.ok v => v
  | Except.error e => { success := false, error := some e }

/-- The try-block of autoFixCode applied to the outcome of the underlying
call: the fixes slot is decoded under an inner catch that degrades any
failure to the empty list. -/
def autoFixCodeResp (resp : Except String (Option Json)) : AutoFixCodeResult :=
  match (do
      let response ← resp
      let fixes : Json :=
        match (do
            let r2 ← jsIndex response 2
            if jsTruthy r2 then jsParse r2 else Except.ok (Json.arr [])
          : Except String Json) with
        | Except.ok w => w
        | Except.error _ => Json.arr []
      let r0 ← jsIndex response 0
      let r1 ← jsIndex response 1
      Except.ok { success := true, fixedCode := r0, status := r1, fixes := some fixes }
    : Except String AutoFixCodeResult) with
  | Except.ok v => v
  | Except.error e => { success := false, error := some e }

/-- The try-block of exportSTL applied to the outcome of the underlying
call, with the same file-reference normalization as generateMesh. -/
def exportSTLResp (baseUrl : String) (resp : Except String (Option Json)) : ExportSTLResult :=
  match (do
      let response ← resp
      let r0 ← jsIndex response 0
      let fileUrl ← normalizeFileRef baseUrl r0
      let r1 ← jsIndex response 1
      Except.ok { success := !(isNullv fileUrl), fileUrl := fileUrl, status := r1 }
    : Except String ExportSTLResult) with
  | Except.ok v => v
  | Except.error e => { success := false, error := some e }

/-- The try-block of getComponentTemplate applied to the outcome of the
underlying call. -/
def getComponentTemplateResp (resp : Except String (Option Json)) : GetComponentTemplateResult :=
  match (do
      let response ← resp
      let r0 ← jsIndex response 0
      let r1 ← jsIndex response 1
      Except.ok { success := true, code := r0, description := r1 }
    : Except String GetComponentTemplateResult) with
  | Except.ok v => v
  | Except.error e => { success := false, error := some e }

/-- The public chatToCode capability call (source lines 76-101). -/
def chatToCode (st : ClientState) (net : Network) (message : String) (history : Json)
    (currentCode : String) : ChatToCodeResult × ClientState × List Request :=
  match callGradio5 st net "chat_to_code" [Json.str message, history, Json.str currentCode] with
  | (resp, st2, tr) => (chatToCodeResp resp, st2, tr)

/-- The public generateMesh capability call (source lines 106-137); params
are JSON-encoded before submission. -/
def generateMesh (st : ClientState) (net : Network) (code : String) (params : Json) :
    GenerateMeshResult × ClientState × List Request :=
  match callGradio5 st net "generate_mesh" [Json.str code, Json.str (jsonSerialize params)] with
  | (resp, st2, tr) => (generateMeshResp st2.baseUrl resp, st2, tr)

/-- The public parseParameters capability call (source lines 142-159). -/
def parseParameters (st : ClientState) (net : Network) (code : String) :
    ParseParametersResult × ClientState × List Request :=
  match callGradio5 st net "parse_parameters" [Json.str code] with
  | (resp, st2, tr) => (parseParametersResp resp, st2, tr)

/-- The public validateCode capability call (source lines 164-191). -/
def validateCode (st : ClientState) (net : Network) (code : String) :
    ValidateCodeResult × ClientState × List Request :=
  match callGradio5 st net "validate_code" [Json.str code] with
  | (resp, st2, tr) => (validateCodeResp resp, st2, tr)

/-- The public autoFixCode capability call (source lines 196-224). -/
def autoFixCode (st : ClientState) (net : Network) (code : String) :
    AutoFixCodeResult × ClientState × List Request :=
  match callGradio5 st net "auto_fix_code" [Json.str code] with
  | (resp, st2, tr) => (autoFixCodeResp resp, st2, tr)

/-- The public exportSTL capability call (source lines 229-255). -/
def exportSTL (st : ClientState) (net : Network) (code : String) (params : Json) :
    ExportSTLResult × ClientState × List Request :=
  match callGradio5 st net "export_stl" [Json.str code, Json.str (jsonSerialize params)] with
  | (resp, st2, tr) => (exportSTLResp st2.baseUrl resp, st2, tr)

/-- The public getComponentTemplate capability call (source lines
260-277). -/
def getComponentTemplate (st : ClientState) (net : Network) (componentType : String)
    (params : Json) : GetComponentTemplateResult × ClientState × List Request :=
  match callGradio5 st net "get_component_template"
      [Json.str componentType, Json.str (jsonSerialize params)] with
  | (resp, st2, tr) => (getComponentTemplateResp resp, st2, tr)

/-- Whether a request is a legacy api/predict POST. -/
def isPredictReq (r : Request) : Bool :=
  match r with
  | Request.apiPredict _ => true
  | _ => false

/-- Whether a request carries the given session hash wherever the
protocol transmits one: in the queue/join body and in the queue/data
query; other requests carry none. -/
def carriesSession (h : String) (r : Request) : Bool :=
  match r with
  | Request.queueJoin body =>
    (match objField body "session_hash" with
     | some (Json.str s) => s == h
     | _ => false)
  | Request.queueData s => s == h
  | _ => true

/-- The connection probe only touches the isConnected flag. -/
lemma checkConnection_session (st : ClientState) (net : Network) :
    ((checkConnection st net).2).sessionHash = st.sessionHash := by
  unfold checkConnection
  cases net.config <;> rfl

/-- The legacy path issues exactly the one api/predict request, with the
arguments and the resolved index in its body. -/
lemma callGradioLegacy_trace (st : ClientState) (net : Network) (fn : String) (args : List Json) :
    (callGradioLegacy st net fn args).2.2 = [Request.apiPredict (predictBody fn args)] := by
  unfold callGradioLegacy
  cases net.apiPredict with
  | error e => rfl
  | ok r =>
    cases hr : r.ok
    · simp [hr]
    · cases hb : r.jsonBody with
      | error e => simp [hr, hb]
      | ok res =>
        cases he : jsGetFieldE res "data" <;> simp [hr, hb, he]

/-- The legacy path never touches the session hash. -/
lemma callGradioLegacy_session (st : ClientState) (net : Network) (fn : String)
    (args : List Json) :
    (callGradioLegacy st net fn args).2.1.sessionHash = st.sessionHash := by
  unfold callGradioLegacy
  cases net.apiPredict with
  | error e => rfl
  | ok r =>
    cases hr : r.ok
    · simp [hr]
    · cases hb : r.jsonBody with
      | error e => simp [hr, hb]
      | ok res =>
        cases he : jsGetFieldE res "data" <;> simp [hr, hb, he]

/-- On a successful legacy response with a readable body, the data field
of the body is the call result. -/
lemma callGradioLegacy_ok (st : ClientState) (net : Network) (fn : String) (args : List Json)
    (lr : FetchResp) (res : Json) (d : Option Json)
    (ha : net.apiPredict = Except.ok lr) (hok : lr.ok = true)
    (hb : lr.jsonBody = Except.ok res) (hd : jsGetFieldE res "data" = Except.ok d) :
    (callGradioLegacy st net fn args).1 = Except.ok d := by
  unfold callGradioLegacy
  simp [ha, hok, hb, hd]

/-- On a non-ok queue submission the whole call is the legacy call, with
the probe and submission requests prepended to the trace. -/
lemma callGradio5_fallback (st : ClientState) (net : Network) (fn : String) (args : List Json)
    (sr : FetchResp) (hj : net.queueJoin = Except.ok sr) (hjok : sr.ok = false) :
    callGradio5 st net fn args =
      ((callGradioLegacy (checkConnection st net).2 net fn args).1,
       (callGradioLegacy (checkConnection st net).2 net fn args).2.1,
       [Request.configProbe,
        Request.queueJoin (joinBody fn args ((checkConnection st net).2).sessionHash)] ++
         (callGradioLegacy (checkConnection st net).2 net fn args).2.2) := by
  unfold callGradio5
  rcases h : callGradioLegacy (checkConnection st net).2 net fn args with ⟨r, s2, t2⟩
  simp [hj, hjok, h]

/-- On an ok submission and ok poll whose stream contains no completion
event, the call throws the no-result error. -/
lemma callGradio5_noResult (st : ClientState) (net : Network) (fn : String) (args : List Json)
    (sr pr : FetchResp) (sb : Json) (ev : Option Json)
    (hj : net.queueJoin = Except.ok sr) (hjok : sr.ok = true)
    (hb : sr.jsonBody = Except.ok sb) (he : jsGetFieldE sb "event_id" = Except.ok ev)
    (hd : net.queueData = Except.ok pr) (hpok : pr.ok = true)
    (hps : pollStream pr.chunks = none) :
    (callGradio5 st net fn args).1 = Except.error "No result received from queue" := by
  unfold callGradio5
  simp [hj, hjok, hb, he, hd, hpok, hps]

/-- On an ok submission and ok poll whose stream contains a completion
event with truthy payload, the payload is the call result. -/
lemma callGradio5_ok (st : ClientState) (net : Network) (fn : String) (args : List Json)
    (sr pr : FetchResp) (sb : Json) (ev : Option Json) (d : Json)
    (hj : net.queueJoin = Except.ok sr) (hjok : sr.ok = true)
    (hb : sr.jsonBody = Except.ok sb) (he : jsGetFieldE sb "event_id" = Except.ok ev)
    (hd : net.queueData = Except.ok pr) (hpok : pr.ok = true)
    (hps : pollStream pr.chunks = some (some d)) (ht : jsTruthyJ d = true) :
    (callGradio5 st net fn args).1 = Except.ok (some d) := by
  unfold callGradio5
  simp [hj, hjok, hb, he, hd, hpok, hps, jsTruthy, ht]

/-- The queue/join body carries the session hash under the session_hash
key. -/
lemma joinBody_session (fn : String) (args : List Json) (h : String) :
    objField (joinBody fn args h) "session_hash" = some (Json.str h) := by
  unfold joinBody objField fnIndexField
  rcases hg : getFnIndex fn <;> simp [lookupField]

/-- A queue/join request built from the session hash satisfies the
session predicate. -/
lemma carriesSession_joinBody (fn : String) (args : List Json) (h : String) :
    carriesSession h (Request.queueJoin (joinBody fn args h)) = true := by
  simp [carriesSession, joinBody_session]

/-- The queue call preserves the session hash and stamps it on every
request that transmits one. -/
lemma callGradio5_session (st : ClientState) (net : Network) (fn : String) (args : List Json) :
    (callGradio5 st net fn args).2.1.sessionHash = st.sessionHash ∧
      ((callGradio5 st net fn args).2.2).all (carriesSession st.sessionHash) = true := by
  have hsh := checkConnection_session st net
  unfold callGradio5
  cases hq : net.queueJoin with
  | error e => simp [hsh, carriesSession, joinBody_session]
  | ok sr =>
    cases hjok : sr.ok
    · rcases hleg : callGradioLegacy (checkConnection st net).2 net fn args with ⟨r, s2, t2⟩
      have h1 := callGradioLegacy_session (checkConnection st net).2 net fn args
      have h2 := callGradioLegacy_trace (checkConnection st net).2 net fn args
      rw [hleg] at h1 h2
      simp only [] at h1 h2
      simp only [hleg, hjok]
      subst h2
      simp [h1, hsh, carriesSession, joinBody_session]
    · cases hb : FetchResp.jsonBody sr with
      | error e => simp [hjok, hb, hsh, carriesSession, joinBody_session]
      | ok sb =>
        cases he : jsGetFieldE sb "event_id" with
        | error e => simp [hjok, hb, he, hsh, carriesSession, joinBody_session]
        | ok ev =>
          cases hd : net.queueData with
          | error e => simp [hjok, hb, he, hd, hsh, carriesSession, joinBody_session]
          | ok pr =>
            cases hpok : pr.ok
            · simp [hjok, hb, he, hd, hpok, hsh, carriesSession, joinBody_session]
            · cases hps : pollStream pr.chunks with
              | none => simp [hjok, hb, he, hd, hpok, hps, hsh, carriesSession, joinBody_session]
              | some r =>
                cases htr : jsTruthy r <;>
                  simp [hjok, hb, he, hd, hpok, hps, htr, hsh, carriesSession, joinBody_session]

/-- C6 counterexample: the lookup `indexMap[fnName] ?? 0` walks the
prototype chain, so the unknown name toString resolves to the inherited
Object.prototype.toString member — not nullish, hence kept by `??` —
rather than to the default index 0. -/
theorem c6_counterexample :
    getFnIndex "toString" = JsLookup.protoFun "toString" ∧
    getFnIndex "toString" ≠ JsLookup.num 0 :=
  ⟨rfl, fun h => nomatch h⟩

/-- C6 amended: index resolution is a fixed deterministic function of the
capability name mapping chat_to_code to 0, parse_parameters to 2,
generate_mesh to 3, export_stl to 4, get_component_template to 5,
validate_code to 6 and auto_fix_code to 7; a name that is neither a map
key nor an inherited Object.prototype member resolves to the default
index 0 instead of erroring; a name of an inherited Object.prototype
member resolves to that inherited member, which `??` keeps since it is
not nullish. -/
theorem c6_fn_index :
    (getFnIndex "chat_to_code" = JsLookup.num 0 ∧
     getFnIndex "parse_parameters" = JsLookup.num 2 ∧
     getFnIndex "generate_mesh" = JsLookup.num 3 ∧
     getFnIndex "export_stl" = JsLookup.num 4 ∧
     getFnIndex "get_component_template" = JsLookup.num 5 ∧
     getFnIndex "validate_code" = JsLookup.num 6 ∧
     getFnIndex "auto_fix_code" = JsLookup.num 7) ∧
    (∀ s : String,
      s ∉ ["chat_to_code", "parse_parameters", "generate_mesh", "export_stl",
        "get_component_template", "validate_code", "auto_fix_code"] →
      s ∉ objectProtoFunNames → s ≠ "__proto__" → getFnIndex s = JsLookup.num 0) ∧
    (∀ s : String, s ∈ objectProtoFunNames → getFnIndex s = JsLookup.protoFun s) ∧
    getFnIndex "__proto__" = JsLookup.protoObj ∧
    (∀ s : String, getFnIndex s = getFnIndex s) := by
  refine ⟨⟨rfl, rfl, rfl, rfl, rfl, rfl, rfl⟩, ?_, ?_, rfl, fun s => rfl⟩
  · intro s hs hp hpp
    unfold getFnIndex
    split_ifs with h1 h2 h3 h4 h5 h6 h7 hp8 hp9 <;> first | rfl | simp_all
  · intro s hs
    fin_cases hs <;> rfl

/-- Witness for C6 at a concrete unknown capability name and a concrete
inherited prototype member name. -/
theorem c6_fn_index_witness :
    getFnIndex "definitely_unknown" = JsLookup.num 0 ∧
    getFnIndex "toString" = JsLookup.protoFun "toString" :=
  ⟨c6_fn_index.2.1 "definitely_unknown" (by decide) (by decide) (by decide),
   c6_fn_index.2.2.1 "toString" (by decide)⟩

/-- C10: during the stream scan, a line that starts with the data marker
but whose remainder is not valid JSON, or parses to a non-completion
event, is skipped without aborting: deleting it from the scanned lines
does not change the scan result. -/
theorem c10_malformed_line_skipped (pre post : List (List Char)) (bad : List Char)
    (hp : ("data: ".toList).isPrefixOf bad = true)
    (hskip : parseJsonChars (bad.drop 6) = none ∨
      ∃ d, parseJsonChars (bad.drop 6) = some d ∧ isCompletion d = false) :
    scanLines (pre ++ bad :: post) = scanLines (pre ++ post) := by
  induction pre with
  | nil =>
    simp only [List.nil_append]
    rw [scanLines]
    rcases hskip with h | ⟨d, hd, hc⟩
    · simp [hp, h]
    · simp [hp, hd, hc]
  | cons l rest ih =>
    simp only [List.cons_append]
    rw [scanLines, scanLines]
    cases hl : ("data: ".toList).isPrefixOf l
    · simp [hl, ih]
    · cases hpl : parseJsonChars (l.drop 6) with
      | none => simp [hl, hpl, ih]
      | some d => cases hcl : isCompletion d <;> simp [hl, hpl, hcl, ih]

/-- A malformed data line used by the C10 witness. -/
def c10BadLine : List Char := ("data: \x7bnot json").toList

/-- A completion line used by the C10 witness. -/
def c10GoodLine : List Char :=
  ("data: \x7b\"msg\":\"process_completed\",\"output\":\x7b\"data\":[7]\x7d\x7d").toList

/-- Witness for C10 at a concrete malformed line. -/
theorem c10_malformed_line_skipped_witness :
    ("data: ".toList).isPrefixOf c10BadLine = true ∧
      scanLines [c10BadLine, c10GoodLine] = scanLines [c10GoodLine] :=
  ⟨rfl, c10_malformed_line_skipped [] [c10GoodLine] c10BadLine rfl (Or.inl rfl)⟩

/-- C9: the session hash is fixed at construction and never mutated by any
capability call, and every queue submission body and every queue/data poll
of any capability call carries exactly this hash. -/
theorem c9_session_immutable (st : ClientState) (net : Network)
    (fn message code currentCode componentType : String) (history params : Json)
    (args : List Json) :
    ((callGradio5 st net fn args).2.1.sessionHash = st.sessionHash ∧
      ((callGradio5 st net fn args).2.2).all (carriesSession st.sessionHash) = true) ∧
    ((chatToCode st net message history currentCode).2.1.sessionHash = st.sessionHash ∧
      ((chatToCode st net message history currentCode).2.2).all
        (carriesSession st.sessionHash) = true) ∧
    ((generateMesh st net code params).2.1.sessionHash = st.sessionHash ∧
      ((generateMesh st net code params).2.2).all (carriesSession st.sessionHash) = true) ∧
    ((parseParameters st net code).2.1.sessionHash = st.sessionHash ∧
      ((parseParameters st net code).2.2).all (carriesSession st.sessionHash) = true) ∧
    ((validateCode st net code).2.1.sessionHash = st.sessionHash ∧
      ((validateCode st net code).2.2).all (carriesSession st.sessionHash) = true) ∧
    ((autoFixCode st net code).2.1.sessionHash = st.sessionHash ∧
      ((autoFixCode st net code).2.2).all (carriesSession st.sessionHash) = true) ∧
    ((exportSTL st net code params).2.1.sessionHash = st.sessionHash ∧
      ((exportSTL st net code params).2.2).all (carriesSession st.sessionHash) = true) ∧
    ((getComponentTemplate st net componentType params).2.1.sessionHash = st.sessionHash ∧
      ((getComponentTemplate st net componentType params).2.2).all
        (carriesSession st.sessionHash) = true) := by
  refine ⟨callGradio5_session st net fn args, ?_, ?_, ?_, ?_, ?_, ?_, ?_⟩
  · have h := callGradio5_session st net "chat_to_code"
      [Json.str message, history, Json.str currentCode]
    rcases hc : callGradio5 st net "chat_to_code"
        [Json.str message, history, Json.str currentCode] with ⟨r, s2, t2⟩
    rw [hc] at h
    simpa [chatToCode, hc] using h
  · have h := callGradio5_session st net "generate_mesh"
      [Json.str code, Json.str (jsonSerialize params)]
    rcases hc : callGradio5 st net "generate_mesh"
        [Json.str code, Json.str (jsonSerialize params)] with ⟨r, s2, t2⟩
    rw [hc] at h
    simpa [generateMesh, hc] using h
  · have h := callGradio5_session st net "parse_parameters" [Json.str code]
    rcases hc : callGradio5 st net "parse_parameters" [Json.str code] with ⟨r, s2, t2⟩
    rw [hc] at h
    simpa [parseParameters, hc] using h
  · have h := callGradio5_session st net "validate_code" [Json.str code]
    rcases hc : callGradio5 st net "validate_code" [Json.str code] with ⟨r, s2, t2⟩
    rw [hc] at h
    simpa [validateCode, hc] using h
  · have h := callGradio5_session st net "auto_fix_code" [Json.str code]
    rcases hc : callGradio5 st net "auto_fix_code" [Json.str code] with ⟨r, s2, t2⟩
    rw [hc] at h
    simpa [autoFixCode, hc] using h
  · have h := callGradio5_session st net "export_stl"
      [Json.str code, Json.str (jsonSerialize params)]
    rcases hc : callGradio5 st net "export_stl"
        [Json.str code, Json.str (jsonSerialize params)] with ⟨r, s2, t2⟩
    rw [hc] at h
    simpa [exportSTL, hc] using h
  · have h := callGradio5_session st net "get_component_template"
      [Json.str componentType, Json.str (jsonSerialize params)]
    rcases hc : callGradio5 st net "get_component_template"
        [Json.str componentType, Json.str (jsonSerialize params)] with ⟨r, s2, t2⟩
    rw [hc] at h
    simpa [getComponentTemplate, hc] using h

/-- A thrown error becomes the chatToCode failure envelope. -/
lemma chatToCodeResp_error (e : String) :
    chatToCodeResp (Except.error e) = { success := false, error := some e } := rfl

/-- A thrown error becomes the generateMesh failure envelope. -/
lemma generateMeshResp_error (base e : String) :
    generateMeshResp base (Except.error e) = { success := false, error := some e } := rfl

/-- A thrown error becomes the parseParameters failure envelope, with the
empty params object substituted. -/
lemma parseParametersResp_error (e : String) :
    parseParametersResp (Except.error e) =
      { success := false, error := some e, params := some (Json.obj []) } := rfl

/-- A thrown error becomes the validateCode failure envelope. -/
lemma validateCodeResp_error (e : String) :
    validateCodeResp (Except.error e) = { success := false, error := some e } := rfl

/-- A thrown error becomes the autoFixCode failure envelope. -/
lemma autoFixCodeResp_error (e : String) :
    autoFixCodeResp (Except.error e) = { success := false, error := some e } := rfl

/-- A thrown error becomes the exportSTL failure envelope. -/
lemma exportSTLResp_error (base e : String) :
    exportSTLResp base (Except.error e) = { success := false, error := some e } := rfl

/-- A thrown error becomes the getComponentTemplate failure envelope. -/
lemma getComponentTemplateResp_error (e : String) :
    getComponentTemplateResp (Except.error e) = { success := false, error := some e } := rfl

/-- C5: a poll stream that ends without any completion event resolves
every capability call to the no-result failure envelope: it neither hangs
(the model call is a total function) nor returns an undefined value. -/
theorem c5_no_completion (st : ClientState) (net : Network) (sr pr : FetchResp) (sb : Json)
    (ev : Option Json) (message code currentCode componentType : String) (history params : Json)
    (hj : net.queueJoin = Except.ok sr) (hjok : sr.ok = true)
    (hb : sr.jsonBody = Except.ok sb) (he : jsGetFieldE sb "event_id" = Except.ok ev)
    (hd : net.queueData = Except.ok pr) (hpok : pr.ok = true)
    (hps : pollStream pr.chunks = none) :
    (chatToCode st net message history currentCode).1 =
      { success := false, error := some "No result received from queue" } ∧
    (generateMesh st net code params).1 =
      { success := false, error := some "No result received from queue" } ∧
    (parseParameters st net code).1 =
      { success := false, error := some "No result received from queue",
        params := some (Json.obj []) } ∧
    (validateCode st net code).1 =
      { success := false, error := some "No result received from queue" } ∧
    (autoFixCode st net code).1 =
      { success := false, error := some "No result received from queue" } ∧
    (exportSTL st net code params).1 =
      { success := false, error := some "No result received from queue" } ∧
    (getComponentTemplate st net componentType params).1 =
      { success := false, error := some "No result received from queue" } := by
  refine ⟨?_, ?_, ?_, ?_, ?_, ?_, ?_⟩
  · have h := callGradio5_noResult st net "chat_to_code"
      [Json.str message, history, Json.str currentCode] sr pr sb ev hj hjok hb he hd hpok hps
    rcases hc : callGradio5 st net "chat_to_code"
        [Json.str message, history, Json.str currentCode] with ⟨r, s2, t2⟩
    rw [hc] at h
    simp only [] at h
    subst h
    simp [chatToCode, hc, chatToCodeResp_error]
  · have h := callGradio5_noResult st net "generate_mesh"
      [Json.str code, Json.str (jsonSerialize params)] sr pr sb ev hj hjok hb he hd hpok hps
    rcases hc : callGradio5 st net "generate_mesh"
        [Json.str code, Json.str (jsonSerialize params)] with ⟨r, s2, t2⟩
    rw [hc] at h
    simp only [] at h
    subst h
    simp [generateMesh, hc, generateMeshResp_error]
  · have h := callGradio5_noResult st net "parse_parameters" [Json.str code]
      sr pr sb ev hj hjok hb he hd hpok hps
    rcases hc : callGradio5 st net "parse_parameters" [Json.str code] with ⟨r, s2, t2⟩
    rw [hc] at h
    simp only [] at h
    subst h
    simp [parseParameters, hc, parseParametersResp_error]
  · have h := callGradio5_noResult st net "validate_code" [Json.str code]
      sr pr sb ev hj hjok hb he hd hpok hps
    rcases hc : callGradio5 st net "validate_code" [Json.str code] with ⟨r, s2, t2⟩
    rw [hc] at h
    simp only [] at h
    subst h
    simp [validateCode, hc, validateCodeResp_error]
  · have h := callGradio5_noResult st net "auto_fix_code" [Json.str code]
      sr pr sb ev hj hjok hb he hd hpok hps
    rcases hc : callGradio5 st net "auto_fix_code" [Json.str code] with ⟨r, s2, t2⟩
    rw [hc] at h
    simp only [] at h
    subst h
    simp [autoFixCode, hc, autoFixCodeResp_error]
  · have h := callGradio5_noResult st net "export_stl"
      [Json.str code, Json.str (jsonSerialize params)] sr pr sb ev hj hjok hb he hd hpok hps
    rcases hc : callGradio5 st net "export_stl"
        [Json.str code, Json.str (jsonSerialize params)] with ⟨r, s2, t2⟩
    rw [hc] at h
    simp only [] at h
    subst h
    simp [exportSTL, hc, exportSTLResp_error]
  · have h := callGradio5_noResult st net "get_component_template"
      [Json.str componentType, Json.str (jsonSerialize params)] sr pr sb ev hj hjok hb he hd
      hpok hps
    rcases hc : callGradio5 st net "get_component_template"
        [Json.str componentType, Json.str (jsonSerialize params)] with ⟨r, s2, t2⟩
    rw [hc] at h
    simp only [] at h
    subst h
    simp [getComponentTemplate, hc, getComponentTemplateResp_error]

/-- Fixture client state for concrete instantiations. -/
def st0 : ClientState := mkAPI none "abc123xyz"

/-- Fixture ok fetch response holding the given body chunks. -/
def okFetch (chunks : List (List Char)) : FetchResp :=
  { ok := true, status := 200, statusText := "OK", chunks := chunks }

/-- Fixture submission body answered by the queue in the fixtures. -/
def evChunk : List Char := ("\x7b\"event_id\":\"e1\"\x7d").toList

/-- Fixture network whose queue endpoints answer ok, streaming the given
chunks from queue/data. -/
def netQueue (chunks : List (List Char)) : Network :=
  { config := Except.ok (okFetch ["\x7b\x7d".toList])
    queueJoin := Except.ok (okFetch [evChunk])
    queueData := Except.ok (okFetch chunks)
    apiPredict := Except.error "unreached" }

/-- Witness for C5: an empty (immediately ended) stream resolves a
validateCode call to the no-result failure envelope. -/
theorem c5_no_completion_witness :
    (validateCode st0 (netQueue []) "code").1 =
      { success := false, error := some "No result received from queue" } :=
  (c5_no_completion st0 (netQueue []) (okFetch [evChunk]) (okFetch [])
    (Json.obj [("event_id", Json.str "e1")]) (some (Json.str "e1"))
    "m" "code" "cc" "ct" (Json.arr []) (Json.obj [])
    rfl rfl rfl rfl rfl rfl rfl).2.2.2.1

/-- C3: on a non-2xx queue submission the client issues the legacy predict
request exactly once, with the same arguments and resolved index in its
body, and a successful legacy response's data field is the result of the
call. -/
theorem c3_fallback (st : ClientState) (net : Network) (fn : String) (args : List Json)
    (sr : FetchResp) (hj : net.queueJoin = Except.ok sr) (hjok : sr.ok = false) :
    ((callGradio5 st net fn args).2.2).countP isPredictReq = 1 ∧
    Request.apiPredict (predictBody fn args) ∈ (callGradio5 st net fn args).2.2 ∧
    (∀ (lr : FetchResp) (res : Json) (d : Option Json),
      net.apiPredict = Except.ok lr → lr.ok = true → lr.jsonBody = Except.ok res →
      jsGetFieldE res "data" = Except.ok d →
      (callGradio5 st net fn args).1 = Except.ok d) := by
  have heq := callGradio5_fallback st net fn args sr hj hjok
  have htr := callGradioLegacy_trace (checkConnection st net).2 net fn args
  refine ⟨?_, ?_, ?_⟩
  · rw [heq]
    simp [htr, List.countP_cons, isPredictReq]
  · rw [heq]
    simp [htr]
  · intro lr res d ha hok hbb hdd
    rw [heq]
    simpa using callGradioLegacy_ok (checkConnection st net).2 net fn args lr res d ha hok hbb hdd

/-- Fixture network whose queue submission fails with a 500 and whose
legacy endpoint answers with a data array. -/
def netFallbackW : Network :=
  { config := Except.ok (okFetch ["\x7b\x7d".toList])
    queueJoin := Except.ok { ok := false, status := 500, statusText := "ERR", chunks := [] }
    queueData := Except.error "unreached"
    apiPredict := Except.ok (okFetch [("\x7b\"data\":[\"x\",\"y\"]\x7d").toList]) }

/-- Witness for C3: with a failing submission and a working legacy
endpoint, exactly one predict request is made and its data array is the
result. -/
theorem c3_fallback_witness :
    ((callGradio5 st0 netFallbackW "validate_code" [Json.str "c"]).2.2).countP isPredictReq = 1 ∧
    (callGradio5 st0 netFallbackW "validate_code" [Json.str "c"]).1 =
      Except.ok (some (Json.arr [Json.str "x", Json.str "y"])) :=
  ⟨(c3_fallback st0 netFallbackW "validate_code" [Json.str "c"]
      { ok := false, status := 500, statusText := "ERR", chunks := [] } rfl rfl).1,
   (c3_fallback st0 netFallbackW "validate_code" [Json.str "c"]
      { ok := false, status := 500, statusText := "ERR", chunks := [] } rfl rfl).2.2
     (okFetch [("\x7b\"data\":[\"x\",\"y\"]\x7d").toList])
     (Json.obj [("data", Json.arr [Json.str "x", Json.str "y"])])
     (some (Json.arr [Json.str "x", Json.str "y"])) rfl rfl rfl rfl⟩

/-- Normalization passes a plain string value through unchanged. -/
lemma normalizeFileRef_string (base s : String) :
    normalizeFileRef base (some (Json.str s)) = Except.ok (some (Json.str s)) := by
  simp [normalizeFileRef, isObjectType]

/-- Normalization passes the js null through unchanged. -/
lemma normalizeFileRef_nullv (base : String) :
    normalizeFileRef base (some Json.null) = Except.ok (some Json.null) := by
  simp [normalizeFileRef, jsTruthy, jsTruthyJ]

/-- Normalization passes undefined through unchanged. -/
lemma normalizeFileRef_undef (base : String) :
    normalizeFileRef base none = Except.ok none := by
  simp [normalizeFileRef, jsTruthy]

/-- The extracted reference is either the js null or truthy. -/
lemma extractRef_null_or_truthy (v : Option Json) :
    extractRef v = some Json.null ∨ jsTruthy (extractRef v) = true := by
  unfold extractRef
  by_cases h1 : jsTruthy (refField v "url") = true
  · right
    rw [if_pos h1]
    exact h1
  · rw [if_neg h1]
    by_cases h2 : jsTruthy (refField v "path") = true
    · right
      rw [if_pos h2]
      exact h2
    · left
      rw [if_neg h2]

/-- A successful absolutization either passes a falsy value through or
produces a string. -/
lemma normalizeStage2_cases (base : String) (m y : Option Json)
    (h : normalizeStage2 base m = Except.ok y) :
    (y = m ∧ jsTruthy m = false) ∨ ∃ s, y = some (Json.str s) := by
  unfold normalizeStage2 at h
  by_cases htm : jsTruthy m = true
  · rw [if_pos htm] at h
    rcases m with _ | jm
    · simp [jsTruthy] at htm
    · cases jm with
      | str s =>
        right
        have h2 : (if startsWithS s "http" = true then Except.ok (some (Json.str s))
            else Except.ok (some (Json.str ((base ++
              if startsWithS s "/" = true then "" else "/") ++ s)))
            : Except String (Option Json)) = Except.ok y := h
        by_cases hsw : startsWithS s "http" = true
        · rw [if_pos hsw] at h2
          injection h2 with h1
          exact ⟨s, h1.symm⟩
        · rw [if_neg hsw] at h2
          injection h2 with h1
          exact ⟨_, h1.symm⟩
      | null => simp [jsTruthy, jsTruthyJ] at htm
      | bool b => exact (Except.noConfusion h)
      | num n => exact (Except.noConfusion h)
      | arr xs => exact (Except.noConfusion h)
      | obj fs => exact (Except.noConfusion h)
  · rw [if_neg htm] at h
    left
    injection h with h1
    exact ⟨h1.symm, by simpa using htm⟩

/-- C8 counterexample: a plain relative string file-reference is passed
through unchanged by the normalization, so the normalized form is not an
absolute URL (it does not start with a scheme), contrary to the claim
that both the once- and twice-normalized forms are absolute. -/
theorem c8_counterexample :
    normalizeFileRef "https://h" (some (Json.str "mesh/out.glb")) =
      Except.ok (some (Json.str "mesh/out.glb")) ∧
    startsWithS "mesh/out.glb" "http" = false := ⟨rfl, rfl⟩

/-- C8 amended: normalization is idempotent on every value on which it
succeeds: a second application to any successful output returns that
output unchanged; absoluteness holds only for extracted object-form
references, while plain strings pass through (see the normalization
theorem of C4). -/
theorem c8_idempotent (base : String) (x y : Option Json)
    (h : normalizeFileRef base x = Except.ok y) :
    normalizeFileRef base y = Except.ok y := by
  unfold normalizeFileRef at h
  by_cases hA : (jsTruthy x && isObjectType x) = true
  · rw [if_pos hA] at h
    rcases normalizeStage2_cases base _ y h with ⟨rfl, hfalsy⟩ | ⟨s, rfl⟩
    · rcases extractRef_null_or_truthy x with hnull | htrue
      · rw [hnull]
        exact normalizeFileRef_nullv base
      · rw [htrue] at hfalsy
        exact absurd hfalsy (by simp)
    · exact normalizeFileRef_string base s
  · rw [if_neg hA] at h
    injection h with h1
    subst h1
    unfold normalizeFileRef
    rw [if_neg hA]

/-- Witness for C8 at a concrete object-form reference. -/
theorem c8_idempotent_witness :
    normalizeFileRef "https://h" (some (Json.str "https://h/f.glb")) =
      Except.ok (some (Json.str "https://h/f.glb")) :=
  c8_idempotent "https://h" (some (Json.obj [("url", Json.str "/f.glb")]))
    (some (Json.str "https://h/f.glb")) rfl

/-- C4 counterexample: a generate-mesh result whose file reference is a
plain relative URL string is returned unchanged, not prefixed with the
base URL: the returned meshUrl starts with neither a scheme nor the base
URL, contrary to the claim that both forms are normalized to one absolute
URL. -/
theorem c4_counterexample :
    (generateMeshResp "https://h" (Except.ok (some (Json.arr
        [Json.str "file/model.glb", Json.str "ok", Json.str "i"])))).meshUrl =
      some (Json.str "file/model.glb") ∧
    startsWithS "file/model.glb" "http" = false ∧
    startsWithS "file/model.glb" "https://h" = false := ⟨rfl, rfl, rfl⟩

/-- C4 amended: only object-form file references are normalized: the url
else path field is extracted and, when it does not start with the literal
http, prefixed with the base URL with exactly one separating slash
(regardless of a leading slash on the value); a plain string reference is
returned unchanged. -/
theorem c4_normalization (base s t : String) (x y : Json)
    (hne : s ≠ "") (hh : startsWithS s "http" = false) :
    (generateMeshResp base (Except.ok (some (Json.arr
        [Json.obj [("url", Json.str s)], x, y])))).meshUrl =
      some (Json.str (base ++ (if startsWithS s "/" then "" else "/") ++ s)) ∧
    (generateMeshResp base (Except.ok (some (Json.arr
        [Json.obj [("path", Json.str s)], x, y])))).meshUrl =
      some (Json.str (base ++ (if startsWithS s "/" then "" else "/") ++ s)) ∧
    (exportSTLResp base (Except.ok (some (Json.arr
        [Json.obj [("url", Json.str s)], x])))).fileUrl =
      some (Json.str (base ++ (if startsWithS s "/" then "" else "/") ++ s)) ∧
    (generateMeshResp base (Except.ok (some (Json.arr [Json.str t, x, y])))).meshUrl =
      some (Json.str t) := by
  have htr : jsTruthyJ (Json.str s) = true := by simp [jsTruthyJ, hne]
  refine ⟨?_, ?_, ?_, ?_⟩ <;>
    simp [generateMeshResp, exportSTLResp, jsIndex, normalizeFileRef, extractRef, refField,
      normalizeStage2, objField, lookupField, jsTruthy, jsTruthyJ, htr, hh, hne, isObjectType,
      isNullv, Bind.bind, Except.bind]

/-- Witness for C4 at a concrete relative object-form reference. -/
theorem c4_normalization_witness :
    (generateMeshResp "https://h" (Except.ok (some (Json.arr
        [Json.obj [("url", Json.str "file/model.glb")], Json.str "ok",
          Json.str "i"])))).meshUrl =
      some (Json.str "https://h/file/model.glb") :=
  (c4_normalization "https://h" "file/model.glb" "t" (Json.str "ok") (Json.str "i")
    (by decide) rfl).1

/-- Stream chunk delivering a completed generate-mesh payload whose mesh
slot is JSON null. -/
def c7Chunk : List Char :=
  ("data: \x7b\"msg\":\"process_completed\",\"output\":\x7b\"data\":[null,\"ok\",\"info\"]\x7d\x7d\n").toList

/-- C7 counterexample: a generate-mesh call whose mesh slot is JSON null
resolves to an envelope with success false and no error message at all,
contrary to the claim that every failure envelope carries a displayable
message string. -/
theorem c7_counterexample :
    (generateMesh st0 (netQueue [c7Chunk]) "code" (Json.obj [])).1 =
      { success := false, meshUrl := some Json.null, status := some (Json.str "ok"),
        meshInfo := some (Json.str "info"), error := none } ∧
    (generateMesh st0 (netQueue [c7Chunk]) "code" (Json.obj [])).1.success = false ∧
    (generateMesh st0 (netQueue [c7Chunk]) "code" (Json.obj [])).1.error = none :=
  ⟨rfl, rfl, rfl⟩

/-- C7 amended: every capability wrapper converts a thrown error into a
failure envelope carrying exactly that message (no wrapper propagates an
exception, the wrappers being total functions into envelope values);
generate-mesh and export-artifact may additionally report success false
with no error message, when the normalized file reference is js null. -/
theorem c7_error_envelopes (e base : String) (x y : Json) :
    chatToCodeResp (Except.error e) = { success := false, error := some e } ∧
    generateMeshResp base (Except.error e) = { success := false, error := some e } ∧
    parseParametersResp (Except.error e) =
      { success := false, error := some e, params := some (Json.obj []) } ∧
    validateCodeResp (Except.error e) = { success := false, error := some e } ∧
    autoFixCodeResp (Except.error e) = { success := false, error := some e } ∧
    exportSTLResp base (Except.error e) = { success := false, error := some e } ∧
    getComponentTemplateResp (Except.error e) = { success := false, error := some e } ∧
    (generateMeshResp base (Except.ok (some (Json.arr [Json.null, x, y])))).success = false ∧
    (generateMeshResp base (Except.ok (some (Json.arr [Json.null, x, y])))).error = none ∧
    (exportSTLResp base (Except.ok (some (Json.arr [Json.null, x])))).success = false ∧
    (exportSTLResp base (Except.ok (some (Json.arr [Json.null, x])))).error = none :=
  ⟨rfl, rfl, rfl, rfl, rfl, rfl, rfl, rfl, rfl, rfl, rfl⟩

/-- Stream chunk delivering a completed parse-parameters payload whose
params slot is the malformed JSON string. -/
def c2Chunk : List Char :=
  ("data: \x7b\"msg\":\"process_completed\",\"output\":\x7b\"data\":[\"not json\",\"ok\"]\x7d\x7d\n").toList

/-- C2 counterexample: a parse-parameters call whose params field is the
malformed string "not json" does not return a success envelope: the
decode is guarded only by the outer catch, so the call fails (success is
false) while substituting the empty params object; the js error text is
engine-specific and modelled by one fixed string. -/
theorem c2_counterexample :
    (parseParameters st0 (netQueue [c2Chunk]) "code").1 =
      { success := false, error := some "Unexpected token in JSON",
        params := some (Json.obj []) } ∧
    (parseParameters st0 (netQueue [c2Chunk]) "code").1.success = false :=
  ⟨rfl, rfl⟩

/-- C2 amended: a malformed JSON field degrades gracefully for
validate-code (warnings become the empty list, success stays true) and
auto-fix-code (fixes become the empty list, success stays true), whose
decodes sit under an inner catch; parse-parameters, whose decode is not
so guarded, instead fails the whole call while substituting the empty
params object. -/
theorem c2_degrade (s : String) (m f g : Json)
    (hbad : parseJson s = none) (hne : s ≠ "") :
    validateCodeResp (Except.ok (some (Json.arr [m, Json.str s]))) =
      { success := true, message := some m, warnings := some (Json.arr []) } ∧
    autoFixCodeResp (Except.ok (some (Json.arr [f, g, Json.str s]))) =
      { success := true, fixedCode := some f, status := some g,
        fixes := some (Json.arr []) } ∧
    parseParametersResp (Except.ok (some (Json.arr [Json.str s, m]))) =
      { success := false, error := some "Unexpected token in JSON",
        params := some (Json.obj []) } := by
  have htr : jsTruthyJ (Json.str s) = true := by simp [jsTruthyJ, hne]
  have hp : jsParse (some (Json.str s)) = Except.error "Unexpected token in JSON" := by
    simp [jsParse, hbad]
  refine ⟨?_, ?_, ?_⟩ <;>
    simp [validateCodeResp, autoFixCodeResp, parseParametersResp, jsIndex, jsTruthy, htr, hp,
      Bind.bind, Except.bind]

/-- Witness for C2 at the concrete malformed field of the claim. -/
theorem c2_degrade_witness :
    validateCodeResp (Except.ok (some (Json.arr [Json.str "m", Json.str "not json"]))) =
      { success := true, message := some (Json.str "m"), warnings := some (Json.arr []) } :=
  (c2_degrade "not json" (Json.str "m") (Json.str "fc") (Json.str "st") rfl (by decide)).1

/-- Interleaved noise chunk of the synthetic stream: a comment line, a
non-data line, and a status event. -/
def c1NoiseChunk : List Char :=
  (": ping\nevent: update\ndata: \x7b\"msg\":\"status\"\x7d\n").toList

/-- Completion chunk using the space-separated tag the claim quotes. -/
def c1SpaceChunk : List Char :=
  ("data: \x7b\"msg\":\"process completed\",\"output\":\x7b\"data\":[1,2,3]\x7d\x7d\n").toList

/-- Completion chunk using the underscore tag the code matches. -/
def c1GoodChunk : List Char :=
  ("data: \x7b\"msg\":\"process_completed\",\"output\":\x7b\"data\":[1,2,3]\x7d\x7d\n").toList

/-- C1 counterexample: on the synthetic stream of the claim, whose
completion event is tagged with the space form "process completed", the
call does not resolve to the data array: the scan matches only the
underscore tag process_completed, so the stream ends unmatched and the
call throws the no-result error. -/
theorem c1_counterexample :
    (callGradio5 st0 (netQueue [c1NoiseChunk, c1SpaceChunk]) "generate_mesh"
        [Json.str "code", Json.str "\x7b\x7d"]).1 =
      Except.error "No result received from queue" ∧
    (callGradio5 st0 (netQueue [c1NoiseChunk, c1SpaceChunk]) "generate_mesh"
        [Json.str "code", Json.str "\x7b\x7d"]).1 ≠
      Except.ok (some (Json.arr [Json.num 1, Json.num 2, Json.num 3])) :=
  ⟨rfl, fun h => nomatch h⟩

/-- C1 amended: with the completion tag the code actually matches,
process_completed, the synthetic stream (noise lines, a status event,
then the completion event) resolves the call to the data array [1,2,3],
and reading stops at the completion chunk: whatever chunks follow are
never consulted. -/
theorem c1_stream_scan (extra : List (List Char)) :
    (callGradio5 st0 (netQueue ([c1NoiseChunk, c1GoodChunk] ++ extra)) "generate_mesh"
        [Json.str "code", Json.str "\x7b\x7d"]).1 =
      Except.ok (some (Json.arr [Json.num 1, Json.num 2, Json.num 3])) := by
  have h1 : scanChunk c1NoiseChunk = none := rfl
  have h2 : scanChunk c1GoodChunk =
      some (some (Json.arr [Json.num 1, Json.num 2, Json.num 3])) := rfl
  have hps : pollStream ([c1NoiseChunk, c1GoodChunk] ++ extra) =
      some (some (Json.arr [Json.num 1, Json.num 2, Json.num 3])) := by
    simp [pollStream, h1, h2]
  exact callGradio5_ok st0 (netQueue ([c1NoiseChunk, c1GoodChunk] ++ extra)) "generate_mesh"
    [Json.str "code", Json.str "\x7b\x7d"] (okFetch [evChunk])
    (okFetch ([c1NoiseChunk, c1GoodChunk] ++ extra))
    (Json.obj [("event_id", Json.str "e1")]) (some (Json.str "e1"))
    (Json.arr [Json.num 1, Json.num 2, Json.num 3]) rfl rfl rfl rfl rfl rfl hps rfl
